import Mathlib

/-!
Verification development for the Nabzram frontend boundary (ui/services/api.ts,
ui/components/LogStreamModal.tsx, ui/components/StatusIndicator.tsx) and the
spec-modelled orchestration core (docs/API.md, spec sections 4.2, 4.4, 4.5, 4.7).
-/

set_option maxRecDepth 4000

namespace Nabzram

/-! ## A small model of JavaScript values, as seen across the pywebview bridge. -/

mutual

inductive JsVal where
  | null : JsVal
  | undefined : JsVal
  | bool (b : Bool) : JsVal
  | num (n : Int) : JsVal
  | str (s : String) : JsVal
  | obj (o : JsObj) : JsVal

inductive JsObj where
  | nil : JsObj
  | cons (k : String) (v : JsVal) (rest : JsObj) : JsObj

end

deriving instance DecidableEq for JsVal, JsObj

mutual

def JsVal.beq : JsVal → JsVal → Bool
  | .null, .null => true
  | .undefined, .undefined => true
  | .bool a, .bool b => a == b
  | .num a, .num b => a == b
  | .str a, .str b => a == b
  | .obj a, .obj b => JsObj.beq a b
  | _, _ => false

def JsObj.beq : JsObj → JsObj → Bool
  | .nil, .nil => true
  | .cons k v r, .cons k2 v2 r2 => k == k2 && JsVal.beq v v2 && JsObj.beq r r2
  | _, _ => false

end

instance : BEq JsVal := ⟨JsVal.beq⟩
instance : BEq JsObj := ⟨JsObj.beq⟩

/-- JavaScript truthiness of a value (`if (x)`), for the value forms we model.
`NaN` does not arise: our numbers are integers. -/
def JsVal.truthy : JsVal → Bool
  | .null => false
  | .undefined => false
  | .bool b => b
  | .num n => n != 0
  | .str s => !s.isEmpty
  | .obj _ => true

/-- Test `typeof x === 'object'` — true for objects and for `null`. -/
def JsVal.typeofObject : JsVal → Bool
  | .null => true
  | .obj _ => true
  | _ => false

/-- First binding of key `k` in an object. -/
def JsObj.lookup : JsObj → String → Option JsVal
  | .nil, _ => none
  | .cons k v r, k2 => if k == k2 then some v else r.lookup k2

/-- Property access `x[k]`: `undefined` when missing or when `x` is not an object. -/
def JsVal.getField : JsVal → String → JsVal
  | .obj o, k => (o.lookup k).getD .undefined
  | _, _ => .undefined

/-- Number of keys of an object. -/
def JsObj.numKeys : JsObj → Nat
  | .nil => 0
  | .cons _ _ r => r.numKeys + 1

/-- Model of `Object.keys(x).length` for our value forms: key count for objects,
character count for strings (string indices), zero otherwise. -/
def JsVal.objectKeysLength : JsVal → Nat
  | .obj o => o.numKeys
  | .str s => s.length
  | _ => 0

def jsonQuote (s : String) : String := "\"" ++ s ++ "\""

mutual

/-- Model of `JSON.stringify`, restricted to the value forms we model
(strings are assumed to need no escaping). -/
def JsVal.jsonStringify : JsVal → String
  | .null => "null"
  | .undefined => "undefined"
  | .bool b => if b then "true" else "false"
  | .num n => toString n
  | .str s => jsonQuote s
  | .obj o => "\x7b" ++ o.jsonFields ++ "\x7d"

def JsObj.jsonFields : JsObj → String
  | .nil => ""
  | .cons k v .nil => jsonQuote k ++ ":" ++ v.jsonStringify
  | .cons k v r => jsonQuote k ++ ":" ++ v.jsonStringify ++ "," ++ r.jsonFields

end

/-- Conversion of a value interpolated into a template literal
(`` `${x}` ``), for the value forms we model. -/
def JsVal.templateString : JsVal → String
  | .null => "null"
  | .undefined => "undefined"
  | .bool b => if b then "true" else "false"
  | .num n => toString n
  | .str s => s
  | .obj _ => "[object Object]"

/-! ## C1 — `callApp` (src/ui/services/api.ts)

```ts
const res = await api[method].apply(api, args);
if (res && typeof res === 'object' && res.success === false) {
  const extra = res.data && Object.keys(res.data).length ? ` (${JSON.stringify(res.data)})` : '';
  throw new Error(`${res.message || 'Operation failed'}${extra}`);
}
return res as T;
```
-/

/-- The guard of the throw: `res && typeof res === 'object' && res.success === false`. -/
def isFailureEnvelope (res : JsVal) : Bool :=
  res.truthy && res.typeofObject && (res.getField "success" == JsVal.bool false)

/-- The extra suffix: `` res.data && Object.keys(res.data).length ? ` (${JSON.stringify(res.data)})` : '' ``. -/
def callAppExtra (res : JsVal) : String :=
  let d := res.getField "data"
  if d.truthy && decide (0 < d.objectKeysLength) then
    " (" ++ d.jsonStringify ++ ")"
  else ""

/-- The thrown message `` `${res.message || 'Operation failed'}${extra}` ``. -/
def callAppErrorMessage (res : JsVal) : String :=
  (if (res.getField "message").truthy
   then (res.getField "message").templateString
   else "Operation failed") ++ callAppExtra res

/-- The result-processing step of `callApp` (src/ui/services/api.ts): either the
response is returned unchanged, or an `Error` carrying the computed message is thrown. -/
def callApp (res : JsVal) : Except String JsVal :=
  if isFailureEnvelope res then .error (callAppErrorMessage res) else .ok res

/-- A failure envelope `{success: false, message?, data?}` as documented in
docs/API.md: `message` an optional string field, `data` an optional object field. -/
def mkEnvelope (msg : Option String) (dat : Option JsObj) : JsVal :=
  .obj (.cons "success" (.bool false)
    (match msg, dat with
     | none, none => .nil
     | some m, none => .cons "message" (.str m) .nil
     | none, some d => .cons "data" (.obj d) .nil
     | some m, some d => .cons "message" (.str m) (.cons "data" (.obj d) .nil)))

/-- The error message the claim ascribes to `callApp`: `res.message`, or
`'Operation failed'` only when `message` is absent, with the JSON of `data`
appended iff `data` is present with at least one key. -/
def claimErrorMessage (msg : Option String) (dat : Option JsObj) : String :=
  (match msg with
   | some m => m
   | none => "Operation failed") ++
  (match dat with
   | some d => if 0 < d.numKeys then " (" ++ (JsVal.obj d).jsonStringify ++ ")" else ""
   | none => "")

/-- The error message with the claim amended: the fallback also fires when
`message` is present but empty (the source tests `res.message ||`, i.e. truthiness). -/
def amendedErrorMessage (msg : Option String) (dat : Option JsObj) : String :=
  (match msg with
   | some m => if m.isEmpty then "Operation failed" else m
   | none => "Operation failed") ++
  (match dat with
   | some d => if 0 < d.numKeys then " (" ++ (JsVal.obj d).jsonStringify ++ ")" else ""
   | none => "")

/-! ### C1 theorems -/

theorem jsval_beq_bool_false_iff (x : JsVal) :
    (x == JsVal.bool false) = true ↔ x = JsVal.bool false := by
  cases x <;> simp [BEq.beq, JsVal.beq]

theorem isFailureEnvelope_mkEnvelope (msg : Option String) (dat : Option JsObj) :
    isFailureEnvelope (mkEnvelope msg dat) = true := by
  cases msg <;> cases dat <;> rfl

theorem callAppErrorMessage_mkEnvelope (msg : Option String) (dat : Option JsObj) :
    callAppErrorMessage (mkEnvelope msg dat) = amendedErrorMessage msg dat := by
  cases msg with
  | none =>
    cases dat with
    | none => rfl
    | some d =>
      show "Operation failed" ++ callAppExtra _ = _
      simp only [callAppExtra, amendedErrorMessage]
      show "Operation failed" ++
          (if (JsVal.obj d).truthy && decide (0 < (JsVal.obj d).objectKeysLength) then
            " (" ++ (JsVal.obj d).jsonStringify ++ ")" else "") = _
      by_cases h : 0 < d.numKeys <;>
        simp [JsVal.truthy, JsVal.objectKeysLength, h]
  | some m =>
    cases dat with
    | none =>
      simp only [callAppErrorMessage, amendedErrorMessage, callAppExtra]
      show (if (JsVal.str m).truthy then (JsVal.str m).templateString else "Operation failed") ++
          (if JsVal.undefined.truthy && decide (0 < JsVal.undefined.objectKeysLength) then
            " (" ++ JsVal.undefined.jsonStringify ++ ")" else "") = _
      by_cases h : m.isEmpty <;>
        simp [JsVal.truthy, JsVal.templateString, h]
    | some d =>
      simp only [callAppErrorMessage, amendedErrorMessage, callAppExtra]
      show (if (JsVal.str m).truthy then (JsVal.str m).templateString else "Operation failed") ++
          (if (JsVal.obj d).truthy && decide (0 < (JsVal.obj d).objectKeysLength) then
            " (" ++ (JsVal.obj d).jsonStringify ++ ")" else "") = _
      by_cases h : m.isEmpty <;> by_cases h2 : 0 < d.numKeys <;>
        simp [JsVal.truthy, JsVal.templateString, JsVal.objectKeysLength, h, h2]

/-- C1: over the boundary, a response is either passed through or converted to a
thrown `Error`: `callApp` returns `res` unchanged whenever `res.success !== false`,
throws exactly when `res` is a (non-null) object with `res.success === false`, and
for a failure envelope the thrown message is `res.message` — with the fallback
`'Operation failed'` used when `message` is absent **or empty** (the source tests
truthiness, not presence) — with the JSON of `res.data` appended iff `data` is
present and has at least one key. -/
theorem c1_callApp_amended (res : JsVal) :
    (res.getField "success" ≠ JsVal.bool false → callApp res = .ok res)
    ∧ (isFailureEnvelope res = true → callApp res = .error (callAppErrorMessage res))
    ∧ (∀ msg dat, res = mkEnvelope msg dat →
        callApp res = .error (amendedErrorMessage msg dat)) := by
  refine ⟨?_, ?_, ?_⟩
  · intro h
    have hb : (res.getField "success" == JsVal.bool false) = false := by
      cases hx : (res.getField "success" == JsVal.bool false)
      · rfl
      · exact absurd ((jsval_beq_bool_false_iff _).mp hx) h
    unfold callApp isFailureEnvelope
    rw [hb]
    simp
  · intro h
    unfold callApp
    rw [h]
    rfl
  · intro msg dat h
    subst h
    unfold callApp
    rw [isFailureEnvelope_mkEnvelope]
    rw [callAppErrorMessage_mkEnvelope]
    rfl

/-- C1 counterexample: on the envelope `{success:false, message:""}` the source
throws `'Operation failed'`, not the (empty) `res.message` the claim prescribes. -/
theorem c1_counterexample :
    callApp (mkEnvelope (some "") none)
      ≠ Except.error (claimErrorMessage (some "") none) := by
  intro h
  have h1 : callApp (mkEnvelope (some "") none) = Except.error "Operation failed" := rfl
  have h2 : claimErrorMessage (some "") none = "" := rfl
  rw [h1, h2] at h
  have := Except.error.inj h
  exact absurd this (by decide)

/-- C1 witness: a success payload passes through; a populated envelope throws the
amended message. -/
theorem c1_witness :
    callApp (JsVal.str "payload") = Except.ok (JsVal.str "payload")
    ∧ callApp (mkEnvelope (some "boom") (some (JsObj.cons "code" (JsVal.num 7) JsObj.nil)))
        = Except.error (amendedErrorMessage (some "boom")
            (some (JsObj.cons "code" (JsVal.num 7) JsObj.nil))) :=
  ⟨(c1_callApp_amended (JsVal.str "payload")).1 (by decide),
   (c1_callApp_amended _).2.2 _ _ rfl⟩

/-! ## C2 — log-stream cursor
Producer side: the Log Buffer `since` read, backing `get_log_stream_batch`
(implementation not under src/). Consumer side: the `poll` closure of
src/ui/components/LogStreamModal.tsx. -/

/-- One buffered output line; `timestamp_ms` is its arrival time in Unix ms. -/
structure BufferedLogEntry where
  timestamp_ms : Int
  message : String
deriving DecidableEq

/-- Modelled from the spec: the Log Buffer cursor read
`since(cursor, limit) -> (entries, nextCursor)` backing `get_log_stream_batch`
(the buffer implementation is not under src/). Entries strictly after `cursor`
are returned, bounded by `limit`; `nextCursor` is the timestamp to resume from,
and when no new entries exist it signals "no advance" (`none`), distinct from
"advance to now". -/
def logBufferSince (buffer : List BufferedLogEntry) (since_ms : Int) (limit : Nat) :
    List BufferedLogEntry × Option Int :=
  let newer := buffer.filter (fun e => since_ms < e.timestamp_ms)
  let out := newer.take limit
  match out.getLast? with
  | none => ([], none)
  | some last => (out, some last.timestamp_ms)

/-- The batch response shape of `get_log_stream_batch`
(`LogStreamBatchResponse`, src/ui/types.ts): `next_since_ms: number | null`. -/
structure LogStreamBatch where
  logs : List BufferedLogEntry
  next_since_ms : Option Int
deriving DecidableEq

/-- The cursor update of `poll` (src/ui/components/LogStreamModal.tsx):
`if (response.next_since_ms) { sinceMsRef.current = response.next_since_ms; }` —
a JavaScript truthiness test, so `0` is treated like `null`. -/
def pollCursorUpdate (sinceMsRef : Option Int) (response : LogStreamBatch) : Option Int :=
  match response.next_since_ms with
  | some v => if v ≠ 0 then some v else sinceMsRef
  | none => sinceMsRef

/-- The cursor update the claim prescribes: replaced by `next_since_ms` exactly
when that value is non-null. -/
def claimCursorUpdate (sinceMsRef : Option Int) (response : LogStreamBatch) : Option Int :=
  match response.next_since_ms with
  | some v => some v
  | none => sinceMsRef

/-! ### C2 theorems -/

/-- C2 (amended): when no buffered entry lies strictly after `T`, the batch read
returns no logs and a `null` cursor (no spurious advance); and the poller
replaces its stored cursor by `response.next_since_ms` only when that value is
non-null **and non-zero** (the source tests truthiness, so a `0` cursor is
ignored like `null`), leaving it unchanged otherwise. -/
theorem c2_log_cursor_amended (buffer : List BufferedLogEntry) (T : Int) (limit : Nat)
    (h : ∀ e ∈ buffer, e.timestamp_ms ≤ T) :
    logBufferSince buffer T limit = ([], none)
    ∧ (∀ cur resp, resp.next_since_ms = none → pollCursorUpdate cur resp = cur)
    ∧ (∀ cur resp, resp.next_since_ms = some 0 → pollCursorUpdate cur resp = cur)
    ∧ (∀ cur resp v, resp.next_since_ms = some v → v ≠ 0 →
        pollCursorUpdate cur resp = some v) := by
  refine ⟨?_, ?_, ?_, ?_⟩
  · have hf : buffer.filter (fun e => T < e.timestamp_ms) = [] := by
      rw [List.filter_eq_nil_iff]
      intro e he
      simp only [decide_eq_true_eq, not_lt]
      exact h e he
    unfold logBufferSince
    rw [hf]
    simp
  · intro cur resp hn
    unfold pollCursorUpdate
    rw [hn]
  · intro cur resp hn
    unfold pollCursorUpdate
    rw [hn]
    rfl
  · intro cur resp v hn hv
    unfold pollCursorUpdate
    rw [hn]
    simp [hv]

/-- C2 counterexample: a response carrying the non-null cursor `0` leaves the
stored cursor unchanged, where the claim requires it to be replaced. -/
theorem c2_counterexample :
    pollCursorUpdate (some 5) ⟨[], some 0⟩
      ≠ claimCursorUpdate (some 5) ⟨[], some 0⟩ := by decide

/-- C2 witness: a one-entry buffer read at its own timestamp, and the three
cursor-update cases at concrete responses. -/
theorem c2_witness :
    logBufferSince [⟨10, "line"⟩] 10 200 = ([], none)
    ∧ pollCursorUpdate (some 5) ⟨[], none⟩ = some 5
    ∧ pollCursorUpdate (some 5) ⟨[], some 0⟩ = some 5
    ∧ pollCursorUpdate (some 5) ⟨[], some 7⟩ = some 7 := by
  have h := c2_log_cursor_amended [⟨10, "line"⟩] 10 200 (by decide)
  exact ⟨h.1, h.2.1 (some 5) ⟨[], none⟩ rfl, h.2.2.1 (some 5) ⟨[], some 0⟩ rfl,
    h.2.2.2 (some 5) ⟨[], some 7⟩ 7 rfl (by decide)⟩

/-! ## C3 — `test_subscription_servers` (Connectivity Tester, spec 4.5;
response shape `SubscriptionUrlTestResponse`, src/ui/types.ts). -/

/-- A candidate server as seen by the tester. -/
structure TestedServer where
  id : String
  remarks : String
deriving DecidableEq

/-- What one probe run of a single server yields (success/latency/error and the
two ephemeral ports it used). The probe itself involves real processes; it is
abstracted as a function in the theorems. -/
structure ProbeOutcome where
  success : Bool
  ping_ms : Option Int
  error : Option String
  socks_port : Nat
  http_port : Nat
deriving DecidableEq

/-- Shape `ServerTestResult` (src/ui/types.ts). -/
structure ServerTestResult where
  server_id : String
  remarks : String
  success : Bool
  ping_ms : Option Int
  error : Option String
  socks_port : Nat
  http_port : Nat
deriving DecidableEq

/-- Shape `SubscriptionUrlTestResponse` (src/ui/types.ts). -/
structure SubscriptionUrlTestResponse where
  message : String
  subscription_id : String
  subscription_name : String
  total_servers : Nat
  successful_tests : Nat
  failed_tests : Nat
  results : List ServerTestResult
deriving DecidableEq

/-- Modelled from the spec: Connectivity Tester `testAll(servers)` (spec 4.5;
implementation not under src/) — one `TestResult` per input server, in input
order, each probe an isolated failure domain (abstracted by `probe`). -/
def testAll (probe : TestedServer → ProbeOutcome) (servers : List TestedServer) :
    List ServerTestResult :=
  servers.map (fun s =>
    let o := probe s
    { server_id := s.id, remarks := s.remarks, success := o.success,
      ping_ms := o.ping_ms, error := o.error,
      socks_port := o.socks_port, http_port := o.http_port })

/-- Modelled from the spec: the boundary operation `test_subscription_servers`
(spec section 6 and docs/API.md; implementation not under src/) — aggregate
counts are derived from the per-result booleans, not tracked separately. -/
def test_subscription_servers (probe : TestedServer → ProbeOutcome)
    (subId subName : String) (servers : List TestedServer) :
    SubscriptionUrlTestResponse :=
  let results := testAll probe servers
  { message := "Tested " ++ toString servers.length ++ " servers",
    subscription_id := subId,
    subscription_name := subName,
    total_servers := servers.length,
    successful_tests := (results.filter (fun r => r.success)).length,
    failed_tests := (results.filter (fun r => !r.success)).length,
    results := results }

/-! ### C3 theorems -/

theorem length_filter_success_add_not (l : List ServerTestResult) :
    (l.filter (fun r => r.success)).length + (l.filter (fun r => !r.success)).length
      = l.length := by
  induction l with
  | nil => rfl
  | cons x xs ih =>
    by_cases h : x.success <;> simp [List.filter, h, ← ih] <;> omega

/-- C3: every test batch returns one result per input server, in input order
(the i-th result carries the i-th server's id and remarks), and
`successful_tests + failed_tests = total_servers` with `successful_tests`
derived from the per-result `success` booleans. -/
theorem c3_test_batch_counts (probe : TestedServer → ProbeOutcome)
    (subId subName : String) (servers : List TestedServer) :
    let resp := test_subscription_servers probe subId subName servers
    resp.results.length = servers.length
    ∧ resp.results.map (fun r => (r.server_id, r.remarks))
        = servers.map (fun s => (s.id, s.remarks))
    ∧ resp.total_servers = servers.length
    ∧ resp.successful_tests + resp.failed_tests = resp.total_servers
    ∧ resp.successful_tests = (resp.results.filter (fun r => r.success)).length
    ∧ resp.failed_tests = (resp.results.filter (fun r => !r.success)).length := by
  refine ⟨?_, ?_, rfl, ?_, rfl, rfl⟩
  · simp [test_subscription_servers, testAll]
  · simp [test_subscription_servers, testAll, List.map_map]
  · show (List.filter _ (testAll probe servers)).length
        + (List.filter _ (testAll probe servers)).length = servers.length
    rw [length_filter_success_add_not]
    simp [testAll]

/-! ## C4 — `stop_server` (Orchestration Facade, spec 4.7; response shapes and
messages from docs/API.md). -/

/-- An allocated local proxy port (`AllocatedPort`, src/ui/types.ts). -/
structure AllocatedPort where
  port : Nat
  protocol : String
  tag : Option String
deriving DecidableEq

/-- The `ActiveConnection` singleton payload (spec section 3): the currently
running server, if any. -/
structure ActiveConnection where
  server_id : String
  remarks : String
  pid : Option Nat
  start_time : Option String
  ports : List AllocatedPort
deriving DecidableEq

/-- Shape `ServerStopResponse` (src/ui/types.ts): `status` is the literal `'stopped'`,
kept as a string field here. -/
structure ServerStopResponse where
  message : String
  server_id : Option String
  status : String
deriving DecidableEq

/-- Modelled from the spec: the boundary operation `stop_server()` (spec 4.7 and
docs/API.md; implementation not under src/) — idempotent and safe to call with
nothing running; both outcomes are success payloads, never the failure envelope. -/
def stop_server (active : Option ActiveConnection) :
    ServerStopResponse × Option ActiveConnection :=
  match active with
  | some c => ({ message := "Server stopped successfully",
                 server_id := some c.server_id, status := "stopped" }, none)
  | none => ({ message := "No server is currently running",
               server_id := none, status := "stopped" }, none)

/-! ### C4 theorems -/

/-- C4: `stop_server()` is idempotent — from every state, two consecutive calls
both return a success payload with status `"stopped"` (no failure envelope is
possible: the result type is the success shape); with nothing running the call
still succeeds, with a null `server_id` and an informative message. -/
theorem c4_stop_server_idempotent (active : Option ActiveConnection) :
    (stop_server active).1.status = "stopped"
    ∧ (stop_server (stop_server active).2).1.status = "stopped"
    ∧ (stop_server active).2 = none
    ∧ (stop_server (stop_server active).2).1
        = { message := "No server is currently running",
            server_id := none, status := "stopped" }
    ∧ (active = none →
        (stop_server active).1.server_id = none
        ∧ (stop_server active).1.message = "No server is currently running") := by
  cases active with
  | none => exact ⟨rfl, rfl, rfl, rfl, fun _ => ⟨rfl, rfl⟩⟩
  | some c =>
    refine ⟨rfl, rfl, rfl, rfl, fun h => by cases h⟩

/-- C4 witness: both calls at a concrete running state. -/
theorem c4_witness :
    (stop_server (some ⟨"srv1", "Tokyo", some 42, some "2025-01-01T00:00:00", []⟩)).1.status
      = "stopped"
    ∧ (stop_server none).1.server_id = none := by
  have h1 := c4_stop_server_idempotent
    (some ⟨"srv1", "Tokyo", some 42, some "2025-01-01T00:00:00", []⟩)
  have h2 := c4_stop_server_idempotent none
  exact ⟨h1.1, (h2.2.2.2.2 rfl).1⟩

/-! ## C5 — at most one running handle (Orchestration Facade, spec 4.3/4.7/8;
implementation not under src/). -/

/-- Lifecycle state of a supervised main-connection handle (spec 4.3). -/
inductive HandleState where
  | running : HandleState
  | stopped : HandleState
deriving DecidableEq

/-- One process handle ever created for the main connection. -/
structure ProcHandle where
  id : Nat
  hstate : HandleState
deriving DecidableEq

/-- The Facade's view of every main-connection handle ever created, plus its
reported status string. -/
structure FacadeState where
  handles : List ProcHandle
  nextId : Nat
  status : String
deriving DecidableEq

/-- A serialized start/stop request against the `ActiveConnection` singleton.
`start` carries the outcome of stopping the previous connection and of spawning
the new process (both involve real processes, abstracted as booleans). -/
inductive FacadeEvent where
  | start (stopOldOk : Bool) (spawnOk : Bool)
  | stop
deriving DecidableEq

def isRunning (h : ProcHandle) : Bool :=
  match h.hstate with
  | .running => true
  | .stopped => false

def countRunning (s : FacadeState) : Nat := (s.handles.filter isRunning).length

def markAllStopped (hs : List ProcHandle) : List ProcHandle :=
  hs.map (fun h => { h with hstate := HandleState.stopped })

/-- Modelled from the spec: the Facade's serialized handling of one start/stop
request (spec 4.7; implementation not under src/). `startServer` stops any
existing active connection first; a failure to stop the old one aborts the new
start and leaves status `error` rather than running two; a spawn failure leaves
no running handle. `stopServer` stops whatever runs. -/
def facadeStep (s : FacadeState) : FacadeEvent → FacadeState
  | .stop => { s with handles := markAllStopped s.handles, status := "stopped" }
  | .start stopOldOk spawnOk =>
    if 0 < countRunning s ∧ stopOldOk = false then
      { s with status := "error" }
    else if spawnOk then
      { handles := markAllStopped s.handles ++ [⟨s.nextId, HandleState.running⟩],
        nextId := s.nextId + 1, status := "running" }
    else
      { handles := markAllStopped s.handles, nextId := s.nextId, status := "error" }

/-- The Facade before any request: no handle exists. -/
def initFacade : FacadeState := { handles := [], nextId := 0, status := "stopped" }

def facadeRun (s : FacadeState) : List FacadeEvent → FacadeState
  | [] => s
  | e :: es => facadeRun (facadeStep s e) es

/-! ### C5 theorems -/

theorem filter_isRunning_markAllStopped (hs : List ProcHandle) :
    (markAllStopped hs).filter isRunning = [] := by
  induction hs with
  | nil => rfl
  | cons x xs ih =>
    simp only [markAllStopped, List.map_cons, List.filter_cons, isRunning]
    simpa [markAllStopped] using ih

theorem countRunning_facadeStep (s : FacadeState) (e : FacadeEvent)
    (h : countRunning s ≤ 1) : countRunning (facadeStep s e) ≤ 1 := by
  cases e with
  | stop =>
    simp [facadeStep, countRunning, filter_isRunning_markAllStopped]
  | start stopOldOk spawnOk =>
    simp only [facadeStep]
    split
    · simpa [countRunning] using h
    · split
      · simp [countRunning, List.filter_append, filter_isRunning_markAllStopped,
          List.filter_cons, isRunning]
      · simp [countRunning, filter_isRunning_markAllStopped]

theorem countRunning_facadeRun (s : FacadeState) (evs : List FacadeEvent)
    (h : countRunning s ≤ 1) : countRunning (facadeRun s evs) ≤ 1 := by
  induction evs generalizing s with
  | nil => exact h
  | cons e es ih => exact ih _ (countRunning_facadeStep s e h)

/-- C5: along every sequence of serialized start/stop requests from the initial
state, at most one handle is ever in `running` state; a start whose
stop-of-the-previous-connection fails aborts (no new handle is created, status
becomes `error`), and a start whose stop succeeds leaves every previously
created handle stopped. -/
theorem c5_at_most_one_running (evs : List FacadeEvent) :
    countRunning (facadeRun initFacade evs) ≤ 1
    ∧ (∀ s b, 0 < countRunning s →
        facadeStep s (.start false b) = { s with status := "error" })
    ∧ (∀ s b, facadeStep s (.start true b) =
        (if b then
          { handles := markAllStopped s.handles ++ [⟨s.nextId, HandleState.running⟩],
            nextId := s.nextId + 1, status := "running" }
         else
          { handles := markAllStopped s.handles, nextId := s.nextId,
            status := "error" })) := by
  refine ⟨countRunning_facadeRun _ evs (by decide), ?_, ?_⟩
  · intro s b h
    simp [facadeStep, h]
  · intro s b
    simp [facadeStep]

/-- C5 witness: the invariant along a concrete request sequence, and the abort
implication at a concrete one-running-handle state. -/
theorem c5_witness :
    countRunning (facadeRun initFacade [.start true true, .start false true]) ≤ 1
    ∧ facadeStep { handles := [⟨0, HandleState.running⟩], nextId := 1, status := "running" }
        (.start false true)
        = { handles := [⟨0, HandleState.running⟩], nextId := 1, status := "error" } := by
  have h := c5_at_most_one_running [.start true true, .start false true]
  exact ⟨h.1,
    h.2.1 { handles := [⟨0, HandleState.running⟩], nextId := 1, status := "running" }
      true (by decide)⟩


/-! ## C6 — `get_server_status` (docs/API.md; implementation not under src/).
The response is modelled as a JavaScript object so that key *presence* (as
opposed to a `null` value) is observable. -/

def jsOfOptNat : Option Nat → JsVal
  | none => .null
  | some n => .num n

def jsOfOptStr : Option String → JsVal
  | none => .null
  | some s => .str s

def jsObjOfList : List (String × JsVal) → JsObj
  | [] => .nil
  | (k, v) :: rest => .cons k v (jsObjOfList rest)

/-- One allocated port rendered as the object `{port, protocol, tag}` of
docs/API.md. -/
def jsOfAllocatedPort (p : AllocatedPort) : JsVal :=
  .obj (jsObjOfList [("port", .num p.port), ("protocol", .str p.protocol),
    ("tag", jsOfOptStr p.tag)])

def jsArr (vs : List JsVal) : JsVal :=
  .obj (jsObjOfList (vs.enum.map (fun p => (toString p.1, p.2))))

/-- Modelled from the spec: the boundary operation `get_server_status()`
(docs/API.md "Server control 3)"; implementation not under src/) — both the
not-running and the running shapes carry all seven fields, with `process_id`,
`start_time` and `allocated_ports` null rather than omitted when unknown. -/
def get_server_status (active : Option ActiveConnection) : JsObj :=
  match active with
  | none =>
    jsObjOfList
      [("message", .str "No server is currently running"),
       ("server_id", .null),
       ("status", .str "stopped"),
       ("remarks", .null),
       ("process_id", .null),
       ("start_time", .null),
       ("allocated_ports", .null)]
  | some c =>
    jsObjOfList
      [("message", .str "Server is running"),
       ("server_id", .str c.server_id),
       ("status", .str "running"),
       ("remarks", .str c.remarks),
       ("process_id", jsOfOptNat c.pid),
       ("start_time", jsOfOptStr c.start_time),
       ("allocated_ports", jsArr (c.ports.map jsOfAllocatedPort))]

/-- Key presence in an object (distinct from carrying a `null` value). -/
def JsObj.hasKey (o : JsObj) (k : String) : Bool :=
  (o.lookup k).isSome

/-! ### C6 theorems -/

/-- C6: for every state, `get_server_status()` carries all of `message`,
`server_id`, `status`, `remarks`, `process_id`, `start_time` and
`allocated_ports` — in particular the last three are present (possibly null) in
both the running and the not-running shape, never omitted. -/
theorem c6_status_fields_present (active : Option ActiveConnection) :
    (get_server_status active).hasKey "message" = true
    ∧ (get_server_status active).hasKey "server_id" = true
    ∧ (get_server_status active).hasKey "status" = true
    ∧ (get_server_status active).hasKey "remarks" = true
    ∧ (get_server_status active).hasKey "process_id" = true
    ∧ (get_server_status active).hasKey "start_time" = true
    ∧ (get_server_status active).hasKey "allocated_ports" = true := by
  cases active with
  | none => exact ⟨rfl, rfl, rfl, rfl, rfl, rfl, rfl⟩
  | some c => exact ⟨rfl, rfl, rfl, rfl, rfl, rfl, rfl⟩

/-! ## C7 — Config Artifact Builder (spec 4.2; implementation not under src/). -/

/-- A server's connection parameters as the builder consumes them: the
protocol tag plus an opaque parameter blob (spec section 3). -/
structure BuildServer where
  protocol : String
  remarks : String
  params : String
deriving DecidableEq

inductive BuildError where
  | unsupportedProtocol (protocol : String)
deriving DecidableEq

/-- The recognized protocol set (spec 4.2). -/
def recognizedProtocols : List String := ["vmess", "vless", "trojan", "shadowsocks"]

/-- Modelled from the spec: `build(server, socksPort, httpPort, logLevel) ->
ConfigArtifact` (spec 4.2; implementation not under src/) — a pure function of
its four inputs producing the configuration document for the proxy core, failing
with `UnsupportedProtocol` outside the recognized set, performing no I/O (the
model is a total Lean function of its arguments, so no ambient state exists for
it to read or write). -/
def build (server : BuildServer) (socksPort httpPort : Nat) (logLevel : String) :
    Except BuildError String :=
  if server.protocol ∈ recognizedProtocols then
    .ok ("\x7b\"log\":\x7b\"loglevel\":\"" ++ logLevel ++ "\"\x7d,"
      ++ "\"inbounds\":[\x7b\"protocol\":\"socks\",\"port\":" ++ toString socksPort
      ++ "\x7d,\x7b\"protocol\":\"http\",\"port\":" ++ toString httpPort ++ "\x7d],"
      ++ "\"outbounds\":[\x7b\"protocol\":\"" ++ server.protocol
      ++ "\",\"settings\":" ++ server.params ++ "\x7d]\x7d")
  else
    .error (.unsupportedProtocol server.protocol)

/-! ### C7 theorems -/

/-- C7: the builder is deterministic — two calls of `build` with identical
inputs produce bit-for-bit identical artifacts (and, the model being a pure
total function, no I/O is involved in either call). -/
theorem c7_build_deterministic (server : BuildServer) (socksPort httpPort : Nat)
    (logLevel : String) (a b : Except BuildError String)
    (h1 : build server socksPort httpPort logLevel = a)
    (h2 : build server socksPort httpPort logLevel = b) : a = b := by
  rw [← h1, ← h2]

/-- C7 witness: two evaluations of `build` at the round-trip inputs of spec
section 8 coincide on a concrete artifact. -/
theorem c7_witness :
    build ⟨"vmess", "Tokyo", "\x7b\x7d"⟩ 1080 8080 "info"
        = build ⟨"vmess", "Tokyo", "\x7b\x7d"⟩ 1080 8080 "info"
    ∧ (build ⟨"vmess", "Tokyo", "\x7b\x7d"⟩ 1080 8080 "info").isOk = true :=
  ⟨c7_build_deterministic ⟨"vmess", "Tokyo", "\x7b\x7d"⟩ 1080 8080 "info" _ _ rfl rfl,
   by decide⟩

/-! ## C8 — append-only log list (src/ui/components/LogStreamModal.tsx). -/

/-- Shape `LogEntry` (src/ui/types.ts): ISO timestamp string plus message. -/
structure UiLogEntry where
  timestamp : String
  message : String
deriving DecidableEq

/-- The `logs` state update of `fetchInitialLogs`: `setLogs(response.logs)`. -/
def initialLogsStep (responseLogs : List UiLogEntry) : List UiLogEntry :=
  responseLogs

/-- The `logs` state update of `poll` (src/ui/components/LogStreamModal.tsx):
`if (response.logs && response.logs.length > 0) setLogs(prev => [...prev, ...response.logs])`
— `none` models an absent (`undefined`) `logs` field. -/
def pollLogsStep (prevLogs : List UiLogEntry) (responseLogs : Option (List UiLogEntry)) :
    List UiLogEntry :=
  match responseLogs with
  | some ls => if 0 < ls.length then prevLogs ++ ls else prevLogs
  | none => prevLogs

/-! ### C8 theorems -/

theorem pollLogsStep_extends (prevLogs : List UiLogEntry)
    (responseLogs : Option (List UiLogEntry)) :
    ∃ t, pollLogsStep prevLogs responseLogs = prevLogs ++ t := by
  cases responseLogs with
  | none => exact ⟨[], by simp [pollLogsStep]⟩
  | some ls =>
    by_cases h : 0 < ls.length
    · exact ⟨ls, by simp [pollLogsStep, h]⟩
    · exact ⟨[], by simp [pollLogsStep, h]⟩

/-- C8: the modal's log list is append-only — every poll's update leaves the
previous list as an unchanged initial segment (so entries are never removed,
replaced or reordered), appends exactly `response.logs` at the end when that
array is non-empty, and leaves the list untouched when it is empty or absent;
the initial snapshot simply installs the snapshot's logs. -/
theorem c8_logs_append_only (prevLogs : List UiLogEntry)
    (responseLogs : Option (List UiLogEntry)) :
    (∃ t, pollLogsStep prevLogs responseLogs = prevLogs ++ t)
    ∧ (∀ ls, responseLogs = some ls → 0 < ls.length →
        pollLogsStep prevLogs responseLogs = prevLogs ++ ls)
    ∧ (responseLogs = none ∨ responseLogs = some [] →
        pollLogsStep prevLogs responseLogs = prevLogs)
    ∧ (∀ r2, ∃ t, pollLogsStep (pollLogsStep prevLogs responseLogs) r2
        = prevLogs ++ t)
    ∧ (∀ snap, initialLogsStep snap = snap) := by
  refine ⟨pollLogsStep_extends prevLogs responseLogs, ?_, ?_, ?_, fun _ => rfl⟩
  · intro ls h hl
    subst h
    simp [pollLogsStep, hl]
  · intro h
    cases h with
    | inl h => subst h; rfl
    | inr h => subst h; rfl
  · intro r2
    obtain ⟨t1, ht1⟩ := pollLogsStep_extends prevLogs responseLogs
    obtain ⟨t2, ht2⟩ := pollLogsStep_extends (pollLogsStep prevLogs responseLogs) r2
    exact ⟨t1 ++ t2, by rw [ht2, ht1, List.append_assoc]⟩

/-- C8 witness: two successive polls over a concrete list. -/
theorem c8_witness :
    pollLogsStep [⟨"t1", "a"⟩] (some [⟨"t2", "b"⟩]) = [⟨"t1", "a"⟩, ⟨"t2", "b"⟩]
    ∧ pollLogsStep [⟨"t1", "a"⟩] (some []) = [⟨"t1", "a"⟩] := by
  have h1 := (c8_logs_append_only [⟨"t1", "a"⟩] (some [⟨"t2", "b"⟩])).2.1
    [⟨"t2", "b"⟩] rfl (by decide)
  have h2 := (c8_logs_append_only [⟨"t1", "a"⟩] (some [])).2.2.1 (Or.inr rfl)
  exact ⟨h1, h2⟩

/-! ## C9 — connection duration display (src/ui/components/StatusIndicator.tsx). -/

/-- Model of `String.padStart(2, '0')`. -/
def padStart2 (s : String) : String :=
  if s.length < 2 then String.mk (List.replicate (2 - s.length) '0') ++ s else s

/-- The body of `updateDuration`: hours, minutes and seconds of `diffSeconds`,
each `padStart(2, '0')`-ed and joined with `:`. -/
def formatHMS (diffSeconds : Nat) : String :=
  padStart2 (toString (diffSeconds / 3600)) ++ ":"
    ++ padStart2 (toString ((diffSeconds % 3600) / 60)) ++ ":"
    ++ padStart2 (toString (diffSeconds % 60))

/-- Model of `Math.max(0, Math.floor((now.getTime() - startTime.getTime()) / 1000))`
(`Math.floor` is floor division, hence `Int.fdiv`). -/
def jsDiffSeconds (nowMs startMs : Int) : Int := max 0 ((nowMs - startMs).fdiv 1000)

/-- The duration string produced by the effect of src/ui/components/StatusIndicator.tsx:
the effect runs only when `isConnected && status?.start_time` is truthy, clears
the duration when `new Date(start_time)` is `NaN` (`parse` returning `none`
models that; `Date` parsing itself is environment-specific), and otherwise
renders `formatHMS` of the clamped difference at the current tick. -/
def updateDurationDisplay (parse : String → Option Int) (isConnected : Bool)
    (start_time : Option String) (nowMs : Int) : String :=
  match start_time with
  | some st =>
    if isConnected && !st.isEmpty then
      match parse st with
      | none => ""
      | some startMs => formatHMS (jsDiffSeconds nowMs startMs).toNat
    else ""
  | none => ""

/-- The display the claim prescribes: when running, hh:mm:ss computed from
`max(0, floor((now - start_time)/1000))` with two-digit zero padding; the empty
string when the start time is invalid (`NaN`) or the status is not running. -/
def claimDurationDisplay (parse : String → Option Int) (isConnected : Bool)
    (start_time : Option String) (nowMs : Int) : String :=
  if isConnected then
    match start_time with
    | some st =>
      match parse st with
      | none => ""
      | some startMs => formatHMS (max 0 ((nowMs - startMs).fdiv 1000)).toNat
    | none => ""
  else ""

/-! ### C9 theorems -/

/-- C9: provided the empty string parses to an invalid date (as `new Date('')`
does), the rendered duration is exactly the claim's formula — `formatHMS` of
`max(0, floor((now − start)/1000))` when running with a valid start time, and
`""` when not running or when the start time is invalid; in particular every
non-empty display renders a natural (never negative) second count. -/
theorem c9_duration_display (parse : String → Option Int) (hparse : parse "" = none)
    (isConnected : Bool) (start_time : Option String) (nowMs : Int) :
    updateDurationDisplay parse isConnected start_time nowMs
      = claimDurationDisplay parse isConnected start_time nowMs
    ∧ (updateDurationDisplay parse isConnected start_time nowMs = ""
        ∨ ∃ d : Nat, updateDurationDisplay parse isConnected start_time nowMs
            = formatHMS d) := by
  constructor
  · cases start_time with
    | none => cases isConnected <;> rfl
    | some st =>
      cases isConnected with
      | false => rfl
      | true =>
        by_cases he : st.isEmpty
        · have hst : st = "" := (String.isEmpty_iff st).mp he
          subst hst
          simp [updateDurationDisplay, claimDurationDisplay, hparse, he]
        · cases hp : parse st with
          | none =>
            simp [updateDurationDisplay, claimDurationDisplay, he, hp]
          | some startMs =>
            simp [updateDurationDisplay, claimDurationDisplay, he, hp,
              jsDiffSeconds]
  · cases start_time with
    | none => exact Or.inl rfl
    | some st =>
      cases isConnected with
      | false => exact Or.inl rfl
      | true =>
        by_cases he : st.isEmpty
        · exact Or.inl (by simp [updateDurationDisplay, he])
        · cases hp : parse st with
          | none => exact Or.inl (by simp [updateDurationDisplay, he, hp])
          | some startMs =>
            exact Or.inr ⟨(jsDiffSeconds nowMs startMs).toNat,
              by simp [updateDurationDisplay, he, hp]⟩

/-- C9 witness: a concrete parse function at a running state whose start time is
one hour, one minute and five seconds before now, and at an invalid start time. -/
theorem c9_witness :
    updateDurationDisplay
        (fun s => if s = "2025-01-01T00:00:00Z" then some 1000 else none)
        true (some "2025-01-01T00:00:00Z") 3665001
      = claimDurationDisplay
        (fun s => if s = "2025-01-01T00:00:00Z" then some 1000 else none)
        true (some "2025-01-01T00:00:00Z") 3665001
    ∧ updateDurationDisplay
        (fun s => if s = "2025-01-01T00:00:00Z" then some 1000 else none)
        true (some "not-a-date") 3665001 = "" := by
  have h1 := c9_duration_display
    (fun s => if s = "2025-01-01T00:00:00Z" then some 1000 else none)
    (by decide) true (some "2025-01-01T00:00:00Z") 3665001
  have h2 := c9_duration_display
    (fun s => if s = "2025-01-01T00:00:00Z" then some 1000 else none)
    (by decide) true (some "not-a-date") 3665001
  exact ⟨h1.1, by rw [h2.1]; rfl⟩

/-! ## C10 — `ensureApiReady` memoization (src/ui/services/api.ts). -/

/-- The module-level state around `ensureApiReady`: the cached
`apiReadyPromise` (identified by a number), a counter to mint fresh promise
identities, and how many 100ms pollers were ever started. -/
structure ApiReadyState where
  apiReadyPromise : Option Nat
  nextPromiseId : Nat
  pollersStarted : Nat
deriving DecidableEq

/-- One invocation of `ensureApiReady` (src/ui/services/api.ts): return the
cached promise if present; otherwise mint a new promise, cache it, and — only
when `window.pywebview.api` is not immediately available — start a poller. -/
def ensureApiReady (s : ApiReadyState) (apiAvailable : Bool) : Nat × ApiReadyState :=
  match s.apiReadyPromise with
  | some p => (p, s)
  | none =>
    (s.nextPromiseId,
     { apiReadyPromise := some s.nextPromiseId,
       nextPromiseId := s.nextPromiseId + 1,
       pollersStarted := if apiAvailable then s.pollersStarted else s.pollersStarted + 1 })

/-- The poller finds the api and resolves the pending promise: the cache is kept. -/
def resolveApiPromise (s : ApiReadyState) : ApiReadyState := s

/-- The poller exceeds the timeout: `apiReadyPromise = null` and the promise
rejects ("Allow retrying"). -/
def timeoutRejectApiPromise (s : ApiReadyState) : ApiReadyState :=
  { s with apiReadyPromise := none }

/-! ### C10 theorems -/

/-- C10: while a promise is cached (pending or resolved), every further call
returns that same promise and changes nothing — in particular no second poller
is started; resolution keeps the cache and a call never clears it, so among the
modelled transitions only the timeout rejection clears the cache; and a call
made after a timeout rejection mints and caches a fresh promise. -/
theorem c10_ensureApiReady_memoized (s : ApiReadyState) (b : Bool) (p : Nat) :
    (s.apiReadyPromise = some p → ensureApiReady s b = (p, s))
    ∧ (resolveApiPromise s).apiReadyPromise = s.apiReadyPromise
    ∧ (timeoutRejectApiPromise s).apiReadyPromise = none
    ∧ ((ensureApiReady s b).2.apiReadyPromise).isSome = true
    ∧ (s.apiReadyPromise = none →
        ensureApiReady s b
          = (s.nextPromiseId,
             { apiReadyPromise := some s.nextPromiseId,
               nextPromiseId := s.nextPromiseId + 1,
               pollersStarted :=
                 if b then s.pollersStarted else s.pollersStarted + 1 })) := by
  refine ⟨?_, rfl, rfl, ?_, ?_⟩
  · intro h
    simp [ensureApiReady, h]
  · cases h : s.apiReadyPromise <;> simp [ensureApiReady, h]
  · intro h
    simp [ensureApiReady, h]

/-- C10 witness: a cache hit at a concrete state, and a fresh start right after
a timeout rejection. -/
theorem c10_witness :
    ensureApiReady ⟨some 3, 4, 1⟩ false = (3, ⟨some 3, 4, 1⟩)
    ∧ ensureApiReady (timeoutRejectApiPromise ⟨some 3, 4, 1⟩) false
        = (4, ⟨some 4, 5, 2⟩) := by
  have h1 := (c10_ensureApiReady_memoized ⟨some 3, 4, 1⟩ false 3).1 rfl
  have h2 := (c10_ensureApiReady_memoized (timeoutRejectApiPromise ⟨some 3, 4, 1⟩)
    false 3).2.2.2.2 rfl
  exact ⟨h1, by rw [h2]; rfl⟩

end Nabzram
